import Mathlib

/-!
Shallow embedding of `install_ml_dependencies.py`, the sole source file of
the repository: a dependency-installation helper that checks the
interpreter version, installs a required package list and an optional
package list via pip child processes, and reports a summary.

Environment model: the outcome of one `subprocess.check_call` invocation is
a `PipResult` — success, a `CalledProcessError` (nonzero child exit
status, caught by `install_package`), or any other exception (e.g. the pip
executable missing), which `install_package` does not catch.  A run is
parameterised by the interpreter version, by `sys.executable`, and by an
oracle `env : List String → PipResult` giving the outcome of invoking a
child process with a given argv.  An uncaught exception is modelled by
`Except.error`; a run that terminates via `sys.exit`/fall-through is
`Except.ok` carrying the printed lines (one entry per `print` call, with
embedded newline characters kept), the argv of every child-process
invocation in order, the final `failed_packages` list, and the exit code.
-/

/-- Interpreter version triple, as in `sys.version_info`. -/
structure VersionInfo where
  major : Nat
  minor : Nat
  micro : Nat
deriving DecidableEq, Repr

/-- Outcome of one `subprocess.check_call` child-process invocation. -/
inductive PipResult where
  | ok : PipResult
  | calledProcessError : String → PipResult
  | otherException : String → PipResult
deriving DecidableEq, Repr

/-- The argv of the pip invocation built by `install_package`:
`[sys.executable, "-m", "pip", "install", package]`. -/
def pipArgv (pyExe package : String) : List String :=
  [pyExe, "-m", "pip", "install", package]

/-- True iff the child process ran and exited with status 0. -/
def PipResult.isOk : PipResult → Bool
  | .ok => true
  | _ => false

/-- True iff the child process ran to completion and delivered an exit
status (success or `CalledProcessError`), rather than the spawn itself
raising some other exception. -/
def PipResult.completes : PipResult → Bool
  | .otherException _ => false
  | _ => true

/-- Result of one call to `install_package`: the boolean it returned, the
lines it printed, and the argv of the child-process invocation it made. -/
structure InstallOutcome where
  success : Bool
  lines : List String
  calls : List (List String)
deriving DecidableEq, Repr

/-- `install_package` (source lines 11-19): invokes pip on the given
specifier; returns `True` with a ✓ line on child success, catches
`CalledProcessError` and returns `False` with a ✗ line; any other
exception propagates (`Except.error`). -/
def install_package (pyExe : String) (env : List String → PipResult)
    (package : String) : Except String InstallOutcome :=
  match env (pipArgv pyExe package) with
  | PipResult.ok =>
      Except.ok ⟨true, ["✓ Successfully installed " ++ package],
        [pipArgv pyExe package]⟩
  | PipResult.calledProcessError e =>
      Except.ok ⟨false, ["✗ Failed to install " ++ package ++ ": " ++ e],
        [pipArgv pyExe package]⟩
  | PipResult.otherException e => Except.error e

/-- `check_python_version` (source lines 21-28), returning both the boolean
and the line it prints. -/
def check_python_version_run (v : VersionInfo) : Bool × List String :=
  if v.major < 3 || (v.major == 3 && v.minor < 7) then
    (false, ["Error: Python 3.7 or higher is required"])
  else
    (true, ["✓ Python " ++ toString v.major ++ "." ++ toString v.minor ++
      "." ++ toString v.micro ++ " detected"])

/-- The boolean returned by `check_python_version`. -/
def check_python_version (v : VersionInfo) : Bool :=
  (check_python_version_run v).1

/-- The required package list (source lines 39-45), verbatim, including
the environment-marker entry for pickle5. -/
def packages : List String :=
  ["numpy>=1.21.0",
   "scikit-learn>=1.0.0",
   "pandas>=1.3.0",
   "joblib>=1.1.0",
   "pickle5>=0.0.11; python_version<\x273.8\x27"]

/-- The optional package list (source lines 48-53), verbatim. -/
def optional_packages : List String :=
  ["tensorflow>=2.8.0",
   "keras>=2.8.0",
   "matplotlib>=3.5.0",
   "seaborn>=0.11.0"]

/-- The banner string `"=" * 40`. -/
def banner : String := String.mk (List.replicate 40 (Char.ofNat 61))

/-- Lines printed when `failed_packages` is non-empty at the end of `main`
(source lines 69-73). -/
def failBlockOf (failed : List String) : List String :=
  ["⚠️  Some required packages failed to install:"] ++
  failed.map (fun p => "   - " ++ p) ++
  ["\nThe ML models may not work properly without these packages.",
   "Please install them manually or check your Python environment."]

/-- Lines printed in the all-required-succeeded branch (source lines
76-80), naming the three downstream model artifacts. -/
def successBlock : List String :=
  ["✅ All required ML dependencies installed successfully!",
   "\nYou can now use the trained ML models in the CityWISE platform:",
   "   - Air Quality Predictor (air_quality_predictor.pkl)",
   "   - Healthcare Priority Model (healthcare_priority_model.h5)",
   "   - Healthcare Scaler (healthcare_scaler.pkl)"]

/-- The verification-command hint (source lines 82-83), reached only in the
success branch since the failure branch exits first. -/
def testBlock : List String :=
  ["\nTo test the installation, run:",
   "   python -c \"import sklearn, numpy, pandas; print(\x27ML dependencies ready!\x27)\""]

/-- One `for package in ...: install_package(package)` pass: returns the
printed lines, the child-process argvs, and the specifiers whose install
returned `False`, in list order; the first uncaught exception aborts. -/
def installAll (pyExe : String) (env : List String → PipResult) :
    List String → Except String (List String × List (List String) × List String)
  | [] => Except.ok ([], [], [])
  | p :: rest =>
    match install_package pyExe env p with
    | Except.error e => Except.error e
    | Except.ok o =>
      match installAll pyExe env rest with
      | Except.error e => Except.error e
      | Except.ok (ls, cs, fs) =>
          Except.ok (o.lines ++ ls, o.calls ++ cs,
            (if o.success then [] else [p]) ++ fs)

/-- Observable result of one terminating run of `main`. -/
structure RunResult where
  lines : List String
  calls : List (List String)
  failed_packages : List String
  exitCode : Nat
deriving DecidableEq, Repr

namespace Installer

/-- `main` (source lines 30-86), in a namespace since Lean reserves the
top-level name `main`.  The version-gate failure branch calls
`sys.exit(1)` before either loop; the required loop accumulates
`failed_packages`; the optional loop discards the boolean; the final
branch exits 1 when `failed_packages` is non-empty and otherwise prints
the success block plus the test hint and falls through (exit 0). -/
def main (v : VersionInfo) (pyExe : String)
    (env : List String → PipResult) : Except String RunResult :=
  let header := ["CityWISE ML Dependencies Installation", banner]
  match check_python_version_run v with
  | (false, vlines) => Except.ok ⟨header ++ vlines, [], [], 1⟩
  | (true, vlines) =>
    match installAll pyExe env packages with
    | Except.error e => Except.error e
    | Except.ok (rlines, rcalls, failed_packages) =>
      match installAll pyExe env optional_packages with
      | Except.error e => Except.error e
      | Except.ok (olines, ocalls, _) =>
        let pre := header ++ vlines ++
          ["\nInstalling required packages..."] ++ rlines ++
          ["\nInstalling optional packages..."] ++ olines ++
          ["\n" ++ banner]
        if failed_packages.isEmpty then
          Except.ok ⟨pre ++ successBlock ++ testBlock,
            rcalls ++ ocalls, failed_packages, 0⟩
        else
          Except.ok ⟨pre ++ failBlockOf failed_packages,
            rcalls ++ ocalls, failed_packages, 1⟩

end Installer

/-- The line `install_package` prints for a completing invocation of the
given specifier (unused default for the non-completing case). -/
def outLine (pyExe : String) (env : List String → PipResult)
    (p : String) : String :=
  match env (pipArgv pyExe p) with
  | PipResult.ok => "✓ Successfully installed " ++ p
  | PipResult.calledProcessError e => "✗ Failed to install " ++ p ++ ": " ++ e
  | PipResult.otherException _ => ""

/-- The required specifiers whose install attempt fails under `env`, in
list order. -/
def requiredFailed (pyExe : String) (env : List String → PipResult) :
    List String :=
  packages.filter (fun p => !(env (pipArgv pyExe p)).isOk)

/-- The line `check_python_version` prints on a passing version. -/
def versionLine (v : VersionInfo) : String :=
  "✓ Python " ++ toString v.major ++ "." ++ toString v.minor ++ "." ++
    toString v.micro ++ " detected"

/-- Test environment in which every child-process invocation succeeds. -/
def envAllOk : List String → PipResult := fun _ => PipResult.ok

/-- Test environment in which the pandas install exits nonzero and every
other invocation succeeds. -/
def envFailPandas : List String → PipResult := fun a =>
  if a = pipArgv "python3" "pandas>=1.3.0" then
    PipResult.calledProcessError "exit status 1"
  else PipResult.ok

/-- Test environment in which the tensorflow (optional) install exits
nonzero and every other invocation succeeds. -/
def envFailTensorflow : List String → PipResult := fun a =>
  if a = pipArgv "python3" "tensorflow>=2.8.0" then
    PipResult.calledProcessError "exit status 1"
  else PipResult.ok

/-- Test environment in which the pickle5 install exits nonzero and every
other invocation succeeds. -/
def envFailPickle : List String → PipResult := fun a =>
  if a = pipArgv "python3" "pickle5>=0.0.11; python_version<\x273.8\x27" then
    PipResult.calledProcessError "exit status 1"
  else PipResult.ok

/-- Test environment in which every spawn raises (pip unavailable). -/
def envRaise : List String → PipResult := fun _ =>
  PipResult.otherException "FileNotFoundError"

theorem check_python_version_run_eq (v : VersionInfo) :
    check_python_version_run v =
      if check_python_version v then (true, [versionLine v])
      else (false, ["Error: Python 3.7 or higher is required"]) := by
  unfold check_python_version check_python_version_run versionLine
  by_cases h : (decide (v.major < 3) || (v.major == 3 && decide (v.minor < 7))) = true
  · simp [h]
  · simp [h]

theorem installAll_eq (pyExe : String) (env : List String → PipResult)
    (l : List String)
    (h : ∀ p ∈ l, (env (pipArgv pyExe p)).completes = true) :
    installAll pyExe env l =
      Except.ok (l.map (outLine pyExe env), l.map (pipArgv pyExe),
        l.filter (fun p => !(env (pipArgv pyExe p)).isOk)) := by
  induction l with
  | nil => rfl
  | cons p rest ih =>
    have hp : (env (pipArgv pyExe p)).completes = true := h p (by simp)
    have hrest : ∀ q ∈ rest, (env (pipArgv pyExe q)).completes = true :=
      fun q hq => h q (by simp [hq])
    rw [installAll, ih hrest]
    cases hres : env (pipArgv pyExe p) with
    | ok =>
        simp [install_package, hres, outLine, PipResult.isOk]
    | calledProcessError e =>
        simp [install_package, hres, outLine, PipResult.isOk]
    | otherException e =>
        rw [hres] at hp
        simp [PipResult.completes] at hp

theorem main_ok (v : VersionInfo) (pyExe : String)
    (env : List String → PipResult)
    (hv : check_python_version v = true)
    (hc : ∀ p ∈ packages ++ optional_packages,
      (env (pipArgv pyExe p)).completes = true) :
    Installer.main v pyExe env = Except.ok
      ⟨["CityWISE ML Dependencies Installation", banner, versionLine v,
          "\nInstalling required packages..."] ++
        packages.map (outLine pyExe env) ++
        ["\nInstalling optional packages..."] ++
        optional_packages.map (outLine pyExe env) ++
        ["\n" ++ banner] ++
        (if (requiredFailed pyExe env).isEmpty then successBlock ++ testBlock
         else failBlockOf (requiredFailed pyExe env)),
       (packages ++ optional_packages).map (pipArgv pyExe),
       requiredFailed pyExe env,
       if (requiredFailed pyExe env).isEmpty then 0 else 1⟩ := by
  have h1 : ∀ p ∈ packages, (env (pipArgv pyExe p)).completes = true :=
    fun p hp => hc p (by simp [hp])
  have h2 : ∀ p ∈ optional_packages, (env (pipArgv pyExe p)).completes = true :=
    fun p hp => hc p (by simp [hp])
  unfold Installer.main
  rw [check_python_version_run_eq, hv, if_pos rfl,
    installAll_eq _ _ _ h1, installAll_eq _ _ _ h2]
  rw [show (packages.filter fun p => !(env (pipArgv pyExe p)).isOk) =
    requiredFailed pyExe env from rfl]
  by_cases hf : (requiredFailed pyExe env).isEmpty = true
  · simp [hf]
  · simp [hf]

theorem main_vfail (v : VersionInfo) (pyExe : String)
    (env : List String → PipResult)
    (hv : check_python_version v = false) :
    Installer.main v pyExe env = Except.ok
      ⟨["CityWISE ML Dependencies Installation", banner,
        "Error: Python 3.7 or higher is required"], [], [], 1⟩ := by
  unfold Installer.main
  rw [check_python_version_run_eq, hv]
  simp

theorem isOk_iff_ok (r : PipResult) : r.isOk = true ↔ r = PipResult.ok := by
  cases r <;> simp [PipResult.isOk]

theorem requiredFailed_empty_iff (pyExe : String)
    (env : List String → PipResult) :
    (requiredFailed pyExe env).isEmpty = true ↔
      ∀ p ∈ packages, env (pipArgv pyExe p) = PipResult.ok := by
  rw [List.isEmpty_iff, requiredFailed, List.filter_eq_nil_iff]
  constructor
  · intro h p hp
    have hpo := h p hp
    rw [← isOk_iff_ok]
    simpa using hpo
  · intro h p hp
    simp [h p hp, PipResult.isOk]

/-- C1: for every run whose child-process invocations all deliver an exit
status, if the version gate passes the exit status is 0 iff every
required-package install succeeded (optional failures notwithstanding)
and is 1 otherwise, and if the version gate fails the exit status is 1. -/
theorem C1_exit_code (v : VersionInfo) (pyExe : String)
    (env : List String → PipResult)
    (hc : ∀ p ∈ packages ++ optional_packages,
      (env (pipArgv pyExe p)).completes = true) :
    ∃ r, Installer.main v pyExe env = Except.ok r ∧
      (check_python_version v = true →
        (r.exitCode = 0 ↔ ∀ p ∈ packages, env (pipArgv pyExe p) = PipResult.ok) ∧
        (r.exitCode = 0 ∨ r.exitCode = 1)) ∧
      (check_python_version v = false → r.exitCode = 1) := by
  by_cases hv : check_python_version v = true
  · refine ⟨_, main_ok v pyExe env hv hc, fun _ => ⟨?_, ?_⟩,
      fun hv0 => by rw [hv] at hv0; cases hv0⟩
    · rw [← requiredFailed_empty_iff pyExe env]
      by_cases hf : (requiredFailed pyExe env).isEmpty = true <;> simp [hf]
    · by_cases hf : (requiredFailed pyExe env).isEmpty = true <;> simp [hf]
  · rw [Bool.not_eq_true] at hv
    refine ⟨_, main_vfail v pyExe env hv, fun hv1 => ?_, fun _ => rfl⟩
    rw [hv] at hv1
    cases hv1

/-- Witness for C1 at Python 3.9.0 with every invocation succeeding. -/
theorem C1_exit_code_witness :
    (∀ p ∈ packages ++ optional_packages,
      (envAllOk (pipArgv "python3" p)).completes = true) ∧
    (∃ r, Installer.main ⟨3, 9, 0⟩ "python3" envAllOk = Except.ok r ∧
      (check_python_version ⟨3, 9, 0⟩ = true →
        (r.exitCode = 0 ↔
          ∀ p ∈ packages, envAllOk (pipArgv "python3" p) = PipResult.ok) ∧
        (r.exitCode = 0 ∨ r.exitCode = 1)) ∧
      (check_python_version ⟨3, 9, 0⟩ = false → r.exitCode = 1)) :=
  ⟨by decide, C1_exit_code ⟨3, 9, 0⟩ "python3" envAllOk (by decide)⟩

/-- C2: `check_python_version` returns true iff major > 3, or major = 3
and minor ≥ 7; boundaries: 3.6.9 → false, 3.7.0 → true, 4.0.0 → true. -/
theorem C2_version_gate :
    (∀ v : VersionInfo,
      check_python_version v = true ↔
        3 < v.major ∨ (v.major = 3 ∧ 7 ≤ v.minor)) ∧
    check_python_version ⟨3, 6, 9⟩ = false ∧
    check_python_version ⟨3, 7, 0⟩ = true ∧
    check_python_version ⟨4, 0, 0⟩ = true := by
  refine ⟨fun v => ?_, by decide, by decide, by decide⟩
  unfold check_python_version check_python_version_run
  split_ifs with h <;> simp at h ⊢ <;> omega

/-- C3: with the gate passing and all invocations delivering an exit
status, `failed_packages` equals the in-order sublist of required
specifiers whose install failed, every specifier of both lists is
attempted with no short-circuit, and a nonempty failure list is reported
together in one contiguous block of the output. -/
theorem C3_failed_packages (v : VersionInfo) (pyExe : String)
    (env : List String → PipResult)
    (hv : check_python_version v = true)
    (hc : ∀ p ∈ packages ++ optional_packages,
      (env (pipArgv pyExe p)).completes = true) :
    ∃ r, Installer.main v pyExe env = Except.ok r ∧
      r.failed_packages =
        packages.filter (fun p => !(env (pipArgv pyExe p)).isOk) ∧
      r.calls = (packages ++ optional_packages).map (pipArgv pyExe) ∧
      (r.failed_packages ≠ [] →
        List.IsInfix
          ("⚠️  Some required packages failed to install:" ::
            r.failed_packages.map (fun p => "   - " ++ p))
          r.lines) := by
  refine ⟨_, main_ok v pyExe env hv hc, rfl, rfl, fun hne => ?_⟩
  have hne2 : requiredFailed pyExe env ≠ [] := hne
  have hf : (requiredFailed pyExe env).isEmpty = false := by
    rw [Bool.eq_false_iff]
    intro h
    exact hne2 (List.isEmpty_iff.mp h)
  refine ⟨["CityWISE ML Dependencies Installation", banner, versionLine v,
      "\nInstalling required packages..."] ++
      packages.map (outLine pyExe env) ++
      ["\nInstalling optional packages..."] ++
      optional_packages.map (outLine pyExe env) ++ ["\n" ++ banner],
    ["\nThe ML models may not work properly without these packages.",
      "Please install them manually or check your Python environment."], ?_⟩
  simp [hf, failBlockOf]

/-- Witness for C3 at Python 3.9.0 with the pandas install failing. -/
theorem C3_failed_packages_witness :
    check_python_version ⟨3, 9, 0⟩ = true ∧
    (∀ p ∈ packages ++ optional_packages,
      (envFailPandas (pipArgv "python3" p)).completes = true) ∧
    (∃ r, Installer.main ⟨3, 9, 0⟩ "python3" envFailPandas = Except.ok r ∧
      r.failed_packages =
        packages.filter (fun p => !(envFailPandas (pipArgv "python3" p)).isOk) ∧
      r.calls = (packages ++ optional_packages).map (pipArgv "python3") ∧
      (r.failed_packages ≠ [] →
        List.IsInfix
          ("⚠️  Some required packages failed to install:" ::
            r.failed_packages.map (fun p => "   - " ++ p))
          r.lines)) :=
  ⟨by decide, by decide,
    C3_failed_packages ⟨3, 9, 0⟩ "python3" envFailPandas (by decide) (by decide)⟩

/-- C4: in every gate-passing run whose invocations all deliver an exit
status, the sequence of child-process install invocations is exactly the
required list in declared order followed by the optional list in declared
order, with no interleaving, omission, or repetition. -/
theorem C4_install_order (v : VersionInfo) (pyExe : String)
    (env : List String → PipResult)
    (hv : check_python_version v = true)
    (hc : ∀ p ∈ packages ++ optional_packages,
      (env (pipArgv pyExe p)).completes = true) :
    ∃ r, Installer.main v pyExe env = Except.ok r ∧
      r.calls = packages.map (pipArgv pyExe) ++
        optional_packages.map (pipArgv pyExe) :=
  ⟨_, main_ok v pyExe env hv hc, by simp⟩

/-- Witness for C4 at Python 3.9.0 with every invocation succeeding. -/
theorem C4_install_order_witness :
    check_python_version ⟨3, 9, 0⟩ = true ∧
    (∀ p ∈ packages ++ optional_packages,
      (envAllOk (pipArgv "python3" p)).completes = true) ∧
    (∃ r, Installer.main ⟨3, 9, 0⟩ "python3" envAllOk = Except.ok r ∧
      r.calls = packages.map (pipArgv "python3") ++
        optional_packages.map (pipArgv "python3")) :=
  ⟨by decide, by decide,
    C4_install_order ⟨3, 9, 0⟩ "python3" envAllOk (by decide) (by decide)⟩

/-- C5: when the version gate fails the run prints the version error and
terminates with exit status 1 having made zero child-process install
invocations. -/
theorem C5_gate_fail_no_installs (v : VersionInfo) (pyExe : String)
    (env : List String → PipResult)
    (hv : check_python_version v = false) :
    ∃ r, Installer.main v pyExe env = Except.ok r ∧
      r.exitCode = 1 ∧ r.calls = [] ∧
      "Error: Python 3.7 or higher is required" ∈ r.lines :=
  ⟨_, main_vfail v pyExe env hv, rfl, rfl, by simp⟩

/-- Witness for C5 at Python 3.6.0. -/
theorem C5_gate_fail_no_installs_witness :
    check_python_version ⟨3, 6, 0⟩ = false ∧
    (∃ r, Installer.main ⟨3, 6, 0⟩ "python3" envAllOk = Except.ok r ∧
      r.exitCode = 1 ∧ r.calls = [] ∧
      "Error: Python 3.7 or higher is required" ∈ r.lines) :=
  ⟨by decide, C5_gate_fail_no_installs ⟨3, 6, 0⟩ "python3" envAllOk (by decide)⟩

/-- C6: for every specifier whose child process delivers an exit status,
`install_package` makes exactly one invocation whose argv ends in that
exact specifier, returns the boolean given by the child's exit status
rather than propagating an error, and prints the ✓ line on success or the
✗ line embedding the captured error on failure. -/
theorem C6_install_package_contract (pyExe package : String)
    (env : List String → PipResult)
    (h : (env (pipArgv pyExe package)).completes = true) :
    ∃ o, install_package pyExe env package = Except.ok o ∧
      o.calls = [[pyExe, "-m", "pip", "install", package]] ∧
      o.success = (env (pipArgv pyExe package)).isOk ∧
      (o.success = true →
        o.lines = ["✓ Successfully installed " ++ package]) ∧
      (o.success = false →
        ∃ e, env (pipArgv pyExe package) = PipResult.calledProcessError e ∧
          o.lines = ["✗ Failed to install " ++ package ++ ": " ++ e]) := by
  cases henv : env (pipArgv pyExe package) with
  | ok =>
      refine ⟨⟨true, ["✓ Successfully installed " ++ package],
        [pipArgv pyExe package]⟩, ?_, rfl, ?_, fun _ => rfl,
        fun hf => Bool.noConfusion hf⟩
      · simp [install_package, henv]
      · simp [henv, PipResult.isOk]
  | calledProcessError e =>
      refine ⟨⟨false, ["✗ Failed to install " ++ package ++ ": " ++ e],
        [pipArgv pyExe package]⟩, ?_, rfl, ?_,
        fun ht => Bool.noConfusion ht, fun _ => ⟨e, rfl, rfl⟩⟩
      · simp [install_package, henv]
      · simp [henv, PipResult.isOk]
  | otherException e =>
      rw [henv] at h
      exact Bool.noConfusion h

/-- Witness for C6 on the numpy specifier with a succeeding invocation. -/
theorem C6_install_package_contract_witness :
    (envAllOk (pipArgv "python3" "numpy>=1.21.0")).completes = true ∧
    (∃ o, install_package "python3" envAllOk "numpy>=1.21.0" = Except.ok o ∧
      o.calls = [["python3", "-m", "pip", "install", "numpy>=1.21.0"]] ∧
      o.success = (envAllOk (pipArgv "python3" "numpy>=1.21.0")).isOk ∧
      (o.success = true →
        o.lines = ["✓ Successfully installed " ++ "numpy>=1.21.0"]) ∧
      (o.success = false →
        ∃ e, envAllOk (pipArgv "python3" "numpy>=1.21.0") =
            PipResult.calledProcessError e ∧
          o.lines = ["✗ Failed to install " ++ "numpy>=1.21.0" ++ ": " ++ e])) :=
  ⟨by decide, C6_install_package_contract "python3" "numpy>=1.21.0" envAllOk (by decide)⟩

/-- C7: the optional pass neither changes `failed_packages` nor any later
control flow: two gate-passing completing runs whose environments agree
on every required-package invocation — however their optional installs
fare — have the same exit status, the same `failed_packages`, and an
identical closing status block after the final banner. -/
theorem C7_optional_frame (v : VersionInfo) (pyExe : String)
    (env1 env2 : List String → PipResult)
    (hv : check_python_version v = true)
    (hc1 : ∀ p ∈ packages ++ optional_packages,
      (env1 (pipArgv pyExe p)).completes = true)
    (hc2 : ∀ p ∈ packages ++ optional_packages,
      (env2 (pipArgv pyExe p)).completes = true)
    (hagree : ∀ p ∈ packages, env1 (pipArgv pyExe p) = env2 (pipArgv pyExe p)) :
    ∃ r1 r2 closing,
      Installer.main v pyExe env1 = Except.ok r1 ∧
      Installer.main v pyExe env2 = Except.ok r2 ∧
      r1.exitCode = r2.exitCode ∧
      r1.failed_packages = r2.failed_packages ∧
      List.IsSuffix (("\n" ++ banner) :: closing) r1.lines ∧
      List.IsSuffix (("\n" ++ banner) :: closing) r2.lines := by
  have hreq : requiredFailed pyExe env1 = requiredFailed pyExe env2 := by
    unfold requiredFailed
    exact List.filter_congr (fun p hp => by rw [hagree p hp])
  refine ⟨_, _,
    (if (requiredFailed pyExe env1).isEmpty then successBlock ++ testBlock
     else failBlockOf (requiredFailed pyExe env1)),
    main_ok v pyExe env1 hv hc1, main_ok v pyExe env2 hv hc2,
    by simp [hreq], hreq, ?_, ?_⟩
  · refine ⟨["CityWISE ML Dependencies Installation", banner, versionLine v,
        "\nInstalling required packages..."] ++
        packages.map (outLine pyExe env1) ++
        ["\nInstalling optional packages..."] ++
        optional_packages.map (outLine pyExe env1), ?_⟩
    simp
  · refine ⟨["CityWISE ML Dependencies Installation", banner, versionLine v,
        "\nInstalling required packages..."] ++
        packages.map (outLine pyExe env2) ++
        ["\nInstalling optional packages..."] ++
        optional_packages.map (outLine pyExe env2), ?_⟩
    simp [hreq]

/-- Witness for C7: all installs succeed versus the tensorflow (optional)
install failing. -/
theorem C7_optional_frame_witness :
    check_python_version ⟨3, 9, 0⟩ = true ∧
    (∀ p ∈ packages ++ optional_packages,
      (envAllOk (pipArgv "python3" p)).completes = true) ∧
    (∀ p ∈ packages ++ optional_packages,
      (envFailTensorflow (pipArgv "python3" p)).completes = true) ∧
    (∀ p ∈ packages,
      envAllOk (pipArgv "python3" p) = envFailTensorflow (pipArgv "python3" p)) ∧
    (∃ r1 r2 closing,
      Installer.main ⟨3, 9, 0⟩ "python3" envAllOk = Except.ok r1 ∧
      Installer.main ⟨3, 9, 0⟩ "python3" envFailTensorflow = Except.ok r2 ∧
      r1.exitCode = r2.exitCode ∧
      r1.failed_packages = r2.failed_packages ∧
      List.IsSuffix (("\n" ++ banner) :: closing) r1.lines ∧
      List.IsSuffix (("\n" ++ banner) :: closing) r2.lines) :=
  ⟨by decide, by decide, by decide, by decide,
    C7_optional_frame ⟨3, 9, 0⟩ "python3" envAllOk envFailTensorflow
      (by decide) (by decide) (by decide) (by decide)⟩

/-- C8: the banner string consists of exactly 40 characters, all of them
the equals sign, and in a fully successful gate-passing run the closing
status block is exactly the success block naming the three downstream
artifact files followed by the verification-command snippet. -/
theorem C8_banner_and_closing_block (v : VersionInfo) (pyExe : String)
    (env : List String → PipResult)
    (hv : check_python_version v = true)
    (hok : ∀ p ∈ packages ++ optional_packages,
      env (pipArgv pyExe p) = PipResult.ok) :
    banner.data = List.replicate 40 (Char.ofNat 61) ∧
    banner.length = 40 ∧
    ∃ r, Installer.main v pyExe env = Except.ok r ∧
      banner ∈ r.lines ∧ ("\n" ++ banner) ∈ r.lines ∧
      List.IsSuffix
        ["✅ All required ML dependencies installed successfully!",
         "\nYou can now use the trained ML models in the CityWISE platform:",
         "   - Air Quality Predictor (air_quality_predictor.pkl)",
         "   - Healthcare Priority Model (healthcare_priority_model.h5)",
         "   - Healthcare Scaler (healthcare_scaler.pkl)",
         "\nTo test the installation, run:",
         "   python -c \"import sklearn, numpy, pandas; print(\x27ML dependencies ready!\x27)\""]
        r.lines := by
  have hc : ∀ p ∈ packages ++ optional_packages,
      (env (pipArgv pyExe p)).completes = true :=
    fun p hp => by rw [hok p hp]; rfl
  have hf : (requiredFailed pyExe env).isEmpty = true :=
    (requiredFailed_empty_iff pyExe env).mpr
      (fun p hp => hok p (by simp [hp]))
  refine ⟨by decide, by decide, _, main_ok v pyExe env hv hc, by simp, by simp, ?_⟩
  refine ⟨["CityWISE ML Dependencies Installation", banner, versionLine v,
      "\nInstalling required packages..."] ++
      packages.map (outLine pyExe env) ++
      ["\nInstalling optional packages..."] ++
      optional_packages.map (outLine pyExe env) ++ ["\n" ++ banner], ?_⟩
  simp [hf, successBlock, testBlock]

/-- Witness for C8 at Python 3.9.0 with every invocation succeeding. -/
theorem C8_banner_and_closing_block_witness :
    check_python_version ⟨3, 9, 0⟩ = true ∧
    (∀ p ∈ packages ++ optional_packages,
      envAllOk (pipArgv "python3" p) = PipResult.ok) ∧
    (banner.data = List.replicate 40 (Char.ofNat 61) ∧
     banner.length = 40 ∧
     ∃ r, Installer.main ⟨3, 9, 0⟩ "python3" envAllOk = Except.ok r ∧
       banner ∈ r.lines ∧ ("\n" ++ banner) ∈ r.lines ∧
       List.IsSuffix
         ["✅ All required ML dependencies installed successfully!",
          "\nYou can now use the trained ML models in the CityWISE platform:",
          "   - Air Quality Predictor (air_quality_predictor.pkl)",
          "   - Healthcare Priority Model (healthcare_priority_model.h5)",
          "   - Healthcare Scaler (healthcare_scaler.pkl)",
          "\nTo test the installation, run:",
          "   python -c \"import sklearn, numpy, pandas; print(\x27ML dependencies ready!\x27)\""]
         r.lines) :=
  ⟨by decide, by decide,
    C8_banner_and_closing_block ⟨3, 9, 0⟩ "python3" envAllOk (by decide) (by decide)⟩

/-- C9: `install_package` catches only the package manager's nonzero-exit
error; any other exception raised while spawning the child process
propagates out of `install_package` uncaught, and through `main` it
aborts the whole run instead of being reported as a boolean failure. -/
theorem C9_other_exception_propagates (pyExe : String)
    (env : List String → PipResult) :
    (∀ package e,
      env (pipArgv pyExe package) = PipResult.otherException e →
      install_package pyExe env package = Except.error e) ∧
    (∀ v e, check_python_version v = true →
      env (pipArgv pyExe "numpy>=1.21.0") = PipResult.otherException e →
      Installer.main v pyExe env = Except.error e) := by
  refine ⟨fun package e henv => by simp [install_package, henv],
    fun v e hv henv => ?_⟩
  have hinst : installAll pyExe env packages = Except.error e := by
    unfold packages
    rw [installAll]
    simp [install_package, henv]
  unfold Installer.main
  rw [check_python_version_run_eq, hv]
  simp [hinst]

/-- Witness for C9: pip spawn raises on the first required package. -/
theorem C9_other_exception_propagates_witness :
    envRaise (pipArgv "python3" "numpy>=1.21.0") =
      PipResult.otherException "FileNotFoundError" ∧
    check_python_version ⟨3, 9, 0⟩ = true ∧
    install_package "python3" envRaise "numpy>=1.21.0" =
      Except.error "FileNotFoundError" ∧
    Installer.main ⟨3, 9, 0⟩ "python3" envRaise =
      Except.error "FileNotFoundError" :=
  ⟨rfl, by decide,
    (C9_other_exception_propagates "python3" envRaise).1
      "numpy>=1.21.0" "FileNotFoundError" rfl,
    (C9_other_exception_propagates "python3" envRaise).2
      ⟨3, 9, 0⟩ "FileNotFoundError" (by decide) rfl⟩

/-- C10: the pickle5 entry keeps its environment marker verbatim inside
the required list; in every gate-passing completing run the whole
specifier, marker included, is the final argv element of one pip
invocation, and a nonzero exit for it counts as a required failure (exit
status 1) even on interpreter versions where the marker predicate
`python_version < 3.8` is false. -/
theorem C10_marker_passed_verbatim (v : VersionInfo) (pyExe : String)
    (env : List String → PipResult)
    (hv : check_python_version v = true)
    (_hpred : 3 < v.major ∨ 8 ≤ v.minor)
    (hc : ∀ p ∈ packages ++ optional_packages,
      (env (pipArgv pyExe p)).completes = true) :
    "pickle5>=0.0.11; python_version<\x273.8\x27" ∈ packages ∧
    ∃ r, Installer.main v pyExe env = Except.ok r ∧
      [pyExe, "-m", "pip", "install",
        "pickle5>=0.0.11; python_version<\x273.8\x27"] ∈ r.calls ∧
      (∀ e, env (pipArgv pyExe "pickle5>=0.0.11; python_version<\x273.8\x27") =
          PipResult.calledProcessError e →
        "pickle5>=0.0.11; python_version<\x273.8\x27" ∈ r.failed_packages ∧
        r.exitCode = 1) := by
  have hmem : "pickle5>=0.0.11; python_version<\x273.8\x27" ∈ packages := by decide
  refine ⟨hmem, _, main_ok v pyExe env hv hc, ?_, fun e he => ⟨?_, ?_⟩⟩
  · exact List.mem_map_of_mem (pipArgv pyExe) (by simp [hmem])
  · show _ ∈ requiredFailed pyExe env
    rw [requiredFailed, List.mem_filter]
    exact ⟨hmem, by rw [he]; rfl⟩
  · show (if (requiredFailed pyExe env).isEmpty then 0 else 1) = 1
    have hne : "pickle5>=0.0.11; python_version<\x273.8\x27" ∈
        requiredFailed pyExe env := by
      rw [requiredFailed, List.mem_filter]
      exact ⟨hmem, by rw [he]; rfl⟩
    have hf : (requiredFailed pyExe env).isEmpty = false := by
      rw [Bool.eq_false_iff]
      intro h0
      rw [List.isEmpty_iff.mp h0] at hne
      cases hne
    rw [hf]
    rfl

/-- Witness for C10 at Python 3.9.0 (marker predicate false) with the
pickle5 install exiting nonzero. -/
theorem C10_marker_passed_verbatim_witness :
    check_python_version ⟨3, 9, 0⟩ = true ∧
    (3 < (3 : Nat) ∨ 8 ≤ (9 : Nat)) ∧
    (∀ p ∈ packages ++ optional_packages,
      (envFailPickle (pipArgv "python3" p)).completes = true) ∧
    ("pickle5>=0.0.11; python_version<\x273.8\x27" ∈ packages ∧
     ∃ r, Installer.main ⟨3, 9, 0⟩ "python3" envFailPickle = Except.ok r ∧
       ["python3", "-m", "pip", "install",
         "pickle5>=0.0.11; python_version<\x273.8\x27"] ∈ r.calls ∧
       (∀ e, envFailPickle
            (pipArgv "python3" "pickle5>=0.0.11; python_version<\x273.8\x27") =
           PipResult.calledProcessError e →
         "pickle5>=0.0.11; python_version<\x273.8\x27" ∈ r.failed_packages ∧
         r.exitCode = 1)) :=
  ⟨by decide, by decide, by decide,
    C10_marker_passed_verbatim ⟨3, 9, 0⟩ "python3" envFailPickle
      (by decide) (by decide) (by decide)⟩
